import Mathlib

set_option synthInstance.maxSize 1024

/-!
Verification of the model-abstraction layer of the Ax Bayesian-optimization
framework: a shallow embedding of `ax/models/torch/botorch.py` (the flat
`BotorchModel` facade and `get_rounding_func`) and of
`ax/models/torch/botorch_modular/model.py` (the modular `BoTorchModel`
facade), together with theorems about the `gen` / `fit` / `update` /
`predict` / `cross_validate` / `best_point` pipeline.

Modelling conventions:
- Python exceptions are modelled with `Except PyError`; the distinct Python
  exception classes raised or caught by this code become constructors of
  `PyError`.
- Torch tensors are modelled as a flat row-major data list together with a
  shape, a device and a `requires_grad` flag.  The orchestration code under
  verification never performs arithmetic on tensor entries, so entries are
  carried as exact rationals (`Val`).  The torch `dtype` is not modelled.
- External collaborators (the model constructor, model predictor,
  acquisition constructor, acquisition optimizer, best-point recommender,
  and the helpers imported from `ax.models.torch.utils` such as
  `subset_model` and `_get_X_pending_and_observed`, whose sources live
  outside the two embedded files) are opaque function parameters, mirroring
  the pluggable-callable design of `BotorchModel`.
- Python `copy.deepcopy` on the plain-data values we model is observationally
  the identity (it produces an equal, independent object), so it is embedded
  as `deepcopy := id`.
-/

/-- Entry type of tensors.  The embedded code only moves entries around,
so real-valued entries are carried as exact rationals. -/
abbrev Val := Rat

/-- Torch device of a tensor: host (CPU) memory or an accelerator. -/
inductive Device where
  | cpu
  | cuda
deriving DecidableEq, Repr

/-- A torch tensor: row-major data together with its shape, its device and
its `requires_grad` flag. -/
structure Tensor where
  shape : List Nat
  data : List Val
  device : Device
  requiresGrad : Bool
deriving DecidableEq, Repr

/-- `Tensor.detach()`: same data, gradient tracking dropped. -/
def Tensor.detach (t : Tensor) : Tensor :=
  ⟨t.shape, t.data, t.device, false⟩

/-- `Tensor.cpu()`: same data, moved to host memory. -/
def Tensor.cpu (t : Tensor) : Tensor :=
  ⟨t.shape, t.data, Device.cpu, t.requiresGrad⟩

/-- `Tensor.tolist()`: the entries as a plain list. -/
def Tensor.tolist (t : Tensor) : List Val :=
  t.data

/-- `torch.ones(n)`: a fresh length-`n` vector of ones on the host. -/
def torchOnes (n : Nat) : Tensor :=
  ⟨[n], List.replicate n 1, Device.cpu, false⟩

/-- `copy.deepcopy` on plain data: an equal, independent value. -/
def deepcopy {α : Type} (a : α) : α := a

/-- The Python exception classes raised or caught by the embedded code. -/
inductive PyError where
  | notImplementedError (msg : String)
  | unsupportedError (msg : String)
  | runtimeError (msg : String)
  | valueError (msg : String)
  | notFittedError (msg : String)
deriving DecidableEq, Repr

/-- Helper for Python `in` on strings: does the character list start with
the pattern? -/
def charsHavePre : List Char → List Char → Bool
  | [], _ => true
  | _ :: _, [] => false
  | p :: ps, c :: cs => p == c && charsHavePre ps cs

/-- Helper for Python `in` on strings: does the pattern occur in the
character list? -/
def charsContain (pat : List Char) : List Char → Bool
  | [] => charsHavePre pat []
  | c :: cs => charsHavePre pat (c :: cs) || charsContain pat cs

/-- Python `pat in s` for strings: substring containment. -/
def strContains (s pat : String) : Bool :=
  charsContain pat.data s.data

/-- The fragment of the error message that `BotorchModel.gen` matches to
recognize the Sobol sampler dimension-limit failure. -/
def sobolLimitMsg : String :=
  "SobolQMCSampler only supports dimensions q * o <= 1111"

/-- Splits a flat list into consecutive chunks of length `d`
(`Tensor.view(-1, d)` on the data of a tensor whose last dimension is `d`). -/
def listChunks {α : Type} (d : Nat) (l : List α) : List (List α) :=
  match l with
  | [] => []
  | x :: xs =>
    if _h : d = 0 then []
    else (x :: xs).take d :: listChunks d ((x :: xs).drop d)
termination_by l.length
decreasing_by
  simp only [List.length_drop, List.length_cons]
  omega

theorem listChunks_nil {α : Type} (d : Nat) : listChunks (α := α) d [] = [] := by
  rw [listChunks]

/-- Re-chunking the concatenation of equal-length rows recovers the rows. -/
theorem listChunks_flatten {α : Type} (d : Nat) (hd : 0 < d) :
    ∀ rows : List (List α), (∀ r ∈ rows, r.length = d) →
      listChunks d rows.flatten = rows := by
  intro rows
  induction rows with
  | nil => intro _; simp [listChunks_nil]
  | cons r rest ih =>
    intro hlen
    have hr : r.length = d := hlen r (by simp)
    have hrest : ∀ x ∈ rest, x.length = d := fun x hx => hlen x (by simp [hx])
    have hrne : r ≠ [] := by
      intro h0
      rw [h0] at hr
      simp at hr
      omega
    have hjoin : (r :: rest).flatten = r ++ rest.flatten := by simp
    obtain ⟨a, as, rfl⟩ : ∃ a as, r = a :: as := by
      cases r with
      | nil => exact absurd rfl hrne
      | cons a as => exact ⟨a, as, rfl⟩
    rw [hjoin, List.cons_append, listChunks]
    rw [dif_neg (by omega : ¬ d = 0)]
    have htake : (a :: (as ++ rest.flatten)).take d = a :: as := by
      have : a :: (as ++ rest.flatten) = (a :: as) ++ rest.flatten := by simp
      rw [this, ← hr]
      exact List.take_left (a :: as) rest.flatten
    have hdrop : (a :: (as ++ rest.flatten)).drop d = rest.flatten := by
      have : a :: (as ++ rest.flatten) = (a :: as) ++ rest.flatten := by simp
      rw [this, ← hr]
      exact List.drop_left (a :: as) rest.flatten
    rw [htake, hdrop, ih hrest]

/-!
## Rounding adapter (`get_rounding_func`, `botorch.py` lines 518-532)

The caller-supplied rounding function acts on a single point (a 1-D tensor,
modelled by its data row).  The wrapper produced by `get_rounding_func`
performs `X.view(-1, d)`, applies the rounding function to each row,
`torch.stack`s the results and views them back to the original shape; row
order, the batch shape, the device and the gradient flag of `X` are
preserved.
-/

/-- The inner `botorch_rounding_func` closure defined by `get_rounding_func`
when a rounding function is supplied: flatten all leading batch dimensions,
round each length-`d` row, reassemble to the original shape. -/
def botorchRoundingWrapper (roundingFunc : List Val → List Val)
    (X : Tensor) : Tensor :=
  let d := X.shape.getLastD 0
  ⟨X.shape, ((listChunks d X.data).map roundingFunc).flatten, X.device,
    X.requiresGrad⟩

/-- `get_rounding_func`: `None` maps to `None` (absence, not a no-op
wrapper); a supplied rounding function is wrapped so it applies correctly
to q-batches and t-batches. -/
def get_rounding_func (roundingFunc : Option (List Val → List Val)) :
    Option (Tensor → Tensor) :=
  match roundingFunc with
  | none => none
  | some f => some (botorchRoundingWrapper f)

/-!
## Flat facade data model (`BotorchModel`, `botorch.py`)
-/

/-- A pytorch module state dict: a parameter snapshot, name to tensor. -/
abbrev StateDict := List (String × Tensor)

/-- A fitted BoTorch `Model`, as far as the facade observes it: an opaque
object carrying its parameter snapshot (`state_dict()`). -/
structure Model where
  stateDict : StateDict
deriving DecidableEq, Repr

/-- `Model.state_dict()`. -/
def Model.state_dict (m : Model) : StateDict := m.stateDict

/-- Opaque pass-through keyword options (`acquisition_function_kwargs`,
`optimizer_kwargs`, and the facade's extra `**kwargs`). -/
abbrev Kwargs := List (String × String)

/-- A Python `Dict[int, float]` mapping input-column indices to values
(`fixed_features`, `target_fidelities`). -/
abbrev IdxValDict := List (Nat × Val)

/-- Python truthiness of an optional dict: `None` and `{}` are falsy,
a non-empty dict is truthy (`if target_fidelities:`). -/
def pyTruthyDict (d : Option IdxValDict) : Bool :=
  match d with
  | none => false
  | some l => !l.isEmpty

/-- The metadata dictionary returned by `gen` (string keys to numeric
lists, e.g. `{"expected_acquisition_value": [...]}`). -/
abbrev GenMetadata := List (String × List Val)

/-- `Keys.EXPECTED_ACQF_VAL` / the literal metadata key used by the flat
facade's `gen`. -/
def expectedAcqfValKey : String := "expected_acquisition_value"

/-- Per-candidate metadata; `gen` always returns `None` for it. -/
abbrev CandidateMetadataList := List Kwargs

/-- The tuple returned by `gen`: candidates, weights, generation metadata,
and optional per-candidate metadata. -/
abbrev GenResult :=
  Tensor × Tensor × GenMetadata × Option CandidateMetadataList

/-- The relevant fields of `SearchSpaceDigest` consumed by
`BotorchModel.fit` (the remaining fields of the real dataclass are unused
by the embedded code). -/
structure SearchSpaceDigest where
  taskFeatures : List Int
  fidelityFeatures : List Int
deriving DecidableEq, Repr

/-- The mutable instance state of a `BotorchModel` facade (the fields
assigned in `__init__` / `fit` / `update`; the torch dtype is not
modelled). -/
structure BotorchState where
  model : Option Model
  Xs : List Tensor
  Ys : List Tensor
  Yvars : List Tensor
  device : Option Device
  taskFeatures : List Nat
  fidelityFeatures : List Nat
  metricNames : List String
deriving DecidableEq, Repr

/-- The state of a freshly constructed `BotorchModel` (from `__init__`):
no model, empty observation set, empty feature metadata. -/
def initBotorchState : BotorchState :=
  ⟨none, [], [], [], none, [], [], []⟩

/-- The boolean configuration flags of a `BotorchModel`, fixed at
construction time. -/
structure BotorchCfg where
  refitOnCv : Bool
  refitOnUpdate : Bool
  warmStartRefitting : Bool
  useInputWarping : Bool
  useLoocvPseudoLikelihood : Bool
deriving DecidableEq, Repr

/-- The full argument record of one `model_constructor` invocation.
`stateDict = none` models passing `state_dict=None` (`fit` omits the
keyword, whose default is `None`); `refitModel = none` models omitting the
`refit_model` keyword. -/
structure ModelConstructorCall where
  Xs : List Tensor
  Ys : List Tensor
  Yvars : List Tensor
  taskFeatures : List Nat
  fidelityFeatures : List Nat
  metricNames : List String
  stateDict : Option StateDict
  refitModel : Option Bool
  useInputWarping : Bool
  useLoocvPseudoLikelihood : Bool
deriving DecidableEq, Repr

/-- The argument record of one `acqf_constructor` invocation inside
`gen`.  `qmcOverride = true` records that `add_kwargs = {"qmc": False}`
was merged into the call (the Sobol fallback attempt); `false` records
that no `qmc` keyword was added. -/
structure AcqfCall where
  model : Option Model
  objectiveWeights : Tensor
  outcomeConstraints : Option (Tensor × Tensor)
  xObserved : Option Tensor
  xPending : Option Tensor
  acfOptions : Kwargs
  qmcOverride : Bool
deriving DecidableEq, Repr

/-- Inequality constraints in the optimizer's representation, produced by
the external `_to_inequality_constraints` helper. -/
abbrev IneqConstraints := List (Tensor × Tensor × Val)

/-- The argument record of one `acqf_optimizer` invocation inside `gen`. -/
structure OptimizerCall (Acqf : Type) where
  acqFunction : Acqf
  bounds : Tensor
  n : Nat
  inequalityConstraints : Option IneqConstraints
  fixedFeatures : Option IdxValDict
  roundingFunc : Option (Tensor → Tensor)
  optimizerOptions : Kwargs

/-- The argument record of one `_get_X_pending_and_observed` invocation. -/
structure ResolveCall where
  Xs : List Tensor
  pendingObservations : Option (List Tensor)
  objectiveWeights : Tensor
  outcomeConstraints : Option (Tensor × Tensor)
  bounds : List (Val × Val)
  linearConstraints : Option (Tensor × Tensor)
  fixedFeatures : Option IdxValDict
deriving DecidableEq, Repr

/-- The result record of the external `subset_model` helper. -/
structure SubsetModelResults where
  model : Model
  objectiveWeights : Tensor
  outcomeConstraints : Option (Tensor × Tensor)
deriving DecidableEq, Repr

/-- The `model_gen_options` configuration dict passed to `gen`:
`Keys.ACQF_KWARGS`, `Keys.OPTIMIZER_KWARGS` and `Keys.SUBSET_MODEL`
entries, each possibly absent. -/
structure GenOptions where
  acqfKwargs : Option Kwargs
  optimizerKwargs : Option Kwargs
  subsetModel : Option Bool
deriving DecidableEq, Repr

/-- `model_gen_options or {}` with every key absent. -/
def emptyGenOptions : GenOptions := ⟨none, none, none⟩

/-- The argument record of one `best_point_recommender` invocation
(`model=self` is recorded as the facade state). -/
structure BestPointCall where
  modelSelf : BotorchState
  bounds : List (Val × Val)
  objectiveWeights : Tensor
  outcomeConstraints : Option (Tensor × Tensor)
  linearConstraints : Option (Tensor × Tensor)
  fixedFeatures : Option IdxValDict
  modelGenOptions : Option GenOptions
  targetFidelities : Option IdxValDict
deriving DecidableEq, Repr

/-- The pluggable collaborators of a `BotorchModel`: the five strategy
callables injected in `__init__` plus the helpers imported from
`ax.models.torch.utils` (whose implementations are external to the
embedded file and hence opaque here).  `Acqf` is the type of acquisition
function objects. -/
structure Collabs (Acqf : Type) where
  modelConstructor : ModelConstructorCall → Model
  modelPredictor : Option Model → Tensor → Except PyError (Tensor × Tensor)
  acqfConstructor : AcqfCall → Except PyError Acqf
  acqfOptimizer : OptimizerCall Acqf → Except PyError (Tensor × Tensor)
  bestPointRecommender : BestPointCall → Option Tensor
  getXPendingAndObserved : ResolveCall → Option Tensor × Option Tensor
  subsetModel : Option Model → Tensor → Option (Tensor × Tensor) →
    Except PyError SubsetModelResults
  toInequalityConstraints : Option (Tensor × Tensor) →
    Option IneqConstraints
  normalizeIndices : List Int → Nat → List Nat

/-!
## Flat facade operations (`BotorchModel`, `botorch.py` lines 273-515)

Every method is embedded as a function from the instance state (and the
injected collaborators/flags) to its result; a method that assigns to
`self` returns the updated state, a method that does not returns the input
state unchanged.  `gen` additionally returns the ordered trace of
collaborator interactions it performed, so that theorems can speak about
how often and with which arguments the acquisition constructor ran.
-/

instance {ε α : Type} [DecidableEq ε] [DecidableEq α] :
    DecidableEq (Except ε α) := fun a b =>
  match a, b with
  | Except.error e1, Except.error e2 =>
    match decEq e1 e2 with
    | isTrue h => isTrue (congrArg Except.error h)
    | isFalse h => isFalse (fun hh => h (Except.error.inj hh))
  | Except.ok v1, Except.ok v2 =>
    match decEq v1 v2 with
    | isTrue h => isTrue (congrArg Except.ok h)
    | isFalse h => isFalse (fun hh => h (Except.ok.inj hh))
  | Except.error _, Except.ok _ => isFalse (fun hh => Except.noConfusion hh)
  | Except.ok _, Except.error _ => isFalse (fun hh => Except.noConfusion hh)

/-- One collaborator interaction performed by `gen`, in program order. -/
inductive GenEvent where
  | resolve (call : ResolveCall)
  | subset (model : Option Model) (objectiveWeights : Tensor)
      (outcomeConstraints : Option (Tensor × Tensor))
  | construct (call : AcqfCall)
  | optimize (result : Except PyError (Tensor × Tensor))
deriving DecidableEq, Repr

/-- The acquisition-constructor calls of a trace, in order. -/
def constructCalls : List GenEvent → List AcqfCall
  | [] => []
  | GenEvent.construct c :: tr => c :: constructCalls tr
  | _ :: tr => constructCalls tr

/-- How many times `gen` invoked the acquisition constructor. -/
def constructCount (tr : List GenEvent) : Nat :=
  (constructCalls tr).length

/-- Is this error a `NotFittedError`? -/
def errIsNotFitted : PyError → Bool
  | PyError.notFittedError _ => true
  | _ => false

/-- Does `gen`'s`except` clause recognize this error as the Sobol sampler
dimension-limit failure (an `UnsupportedError` whose message contains the
limit text)? -/
def isSobolDimensionError : PyError → Bool
  | PyError.unsupportedError msg => strContains msg sobolLimitMsg
  | _ => false

/-- `torch.tensor(bounds, dtype=self.dtype, device=self.device)
.transpose(0, 1)`: shape `[2, d]`, lower bounds then upper bounds
(`device=None` places the tensor on the host). -/
def boundsToTensor (device : Option Device) (bounds : List (Val × Val)) :
    Tensor :=
  ⟨[2, bounds.length], bounds.map Prod.fst ++ bounds.map Prod.snd,
    device.getD Device.cpu, false⟩

/-- `BotorchModel.fit`: store data and feature metadata, construct the
model (no `state_dict` / `refit_model` keywords are passed).  As in the
source, `Xs` is assumed non-empty (`Xs[0]` is read for dtype/device).
Also returns the constructor-call record for inspection. -/
def BotorchModel_fit {A : Type} (C : Collabs A) (cfg : BotorchCfg)
    (_s : BotorchState) (Xs Ys Yvars : List Tensor)
    (ssd : SearchSpaceDigest) (metricNames : List String) :
    BotorchState × ModelConstructorCall :=
  let x0 := Xs.headD ⟨[], [], Device.cpu, false⟩
  let d := x0.shape.getLastD 0
  let taskFeatures := C.normalizeIndices ssd.taskFeatures d
  let fidelityFeatures := C.normalizeIndices ssd.fidelityFeatures d
  let call : ModelConstructorCall :=
    ⟨Xs, Ys, Yvars, taskFeatures, fidelityFeatures, metricNames, none,
      none, cfg.useInputWarping, cfg.useLoocvPseudoLikelihood⟩
  let model := C.modelConstructor call
  (⟨some model, Xs, Ys, Yvars, some x0.device, taskFeatures,
    fidelityFeatures, metricNames⟩, call)

/-- `BotorchModel.predict`: delegate to the model predictor, passing
`self.model` as-is (which is `None` when unfitted — the facade performs no
fitted-state check here). -/
def BotorchModel_predict {A : Type} (C : Collabs A) (s : BotorchState)
    (X : Tensor) : Except PyError (Tensor × Tensor) :=
  C.modelPredictor s.model X

/-- The per-`gen` acquisition context: everything captured by the
`make_and_optimize_acqf` closure. -/
structure AcqfEnv (Acqf : Type) where
  acqfConstructor : AcqfCall → Except PyError Acqf
  acqfOptimizer : OptimizerCall Acqf → Except PyError (Tensor × Tensor)
  model : Option Model
  objectiveWeights : Tensor
  outcomeConstraints : Option (Tensor × Tensor)
  xObserved : Option Tensor
  xPending : Option Tensor
  acfOptions : Kwargs
  boundsT : Tensor
  n : Nat
  inequalityConstraints : Option IneqConstraints
  fixedFeatures : Option IdxValDict
  botorchRoundingFunc : Option (Tensor → Tensor)
  optimizerOptions : Kwargs

/-- The acquisition-constructor call one attempt makes. -/
def acqfCallOf {A : Type} (env : AcqfEnv A) (overrideQmc : Bool) :
    AcqfCall :=
  ⟨env.model, env.objectiveWeights, env.outcomeConstraints, env.xObserved,
    env.xPending, env.acfOptions, overrideQmc⟩

/-- `make_and_optimize_acqf(override_qmc)`: build the acquisition function
(with `qmc=False` merged into the kwargs iff `override_qmc`), then run the
optimizer on it.  Exceptions from either step propagate. -/
def makeAndOptimizeAcqf {A : Type} (env : AcqfEnv A) (overrideQmc : Bool) :
    Except PyError (Tensor × Tensor) × List GenEvent :=
  let call := acqfCallOf env overrideQmc
  match env.acqfConstructor call with
  | Except.error e => (Except.error e, [GenEvent.construct call])
  | Except.ok acqf =>
    let optCall : OptimizerCall A :=
      ⟨acqf, env.boundsT, env.n, env.inequalityConstraints,
        env.fixedFeatures, env.botorchRoundingFunc, env.optimizerOptions⟩
    match env.acqfOptimizer optCall with
    | Except.error e =>
      (Except.error e,
        [GenEvent.construct call, GenEvent.optimize (Except.error e)])
    | Except.ok ce =>
      (Except.ok ce,
        [GenEvent.construct call, GenEvent.optimize (Except.ok ce)])

/-- The `try/except UnsupportedError` block of `gen`: attempt once with
default sampling; if that raises an `UnsupportedError` whose message
contains the Sobol dimension-limit text, attempt exactly once more with
`override_qmc=True`; re-raise anything else unchanged. -/
def tryWithQmcFallback {A : Type} (env : AcqfEnv A) :
    Except PyError (Tensor × Tensor) × List GenEvent :=
  match makeAndOptimizeAcqf env false with
  | (Except.ok ce, t1) => (Except.ok ce, t1)
  | (Except.error e, t1) =>
    match e with
    | PyError.unsupportedError msg =>
      if strContains msg sobolLimitMsg then
        let r2 := makeAndOptimizeAcqf env true
        (r2.1, t1 ++ r2.2)
      else (Except.error (PyError.unsupportedError msg), t1)
    | e' => (Except.error e', t1)

/-- The tail of `gen` after the subsetting step: run the guarded
try/except block and package a successful result (candidates detached and
moved to the host, weight one per candidate, expected acquisition value in
the metadata, no candidate metadata). -/
def genFinish {A : Type} (s : BotorchState) (n : Nat) (env : AcqfEnv A)
    (tr : List GenEvent) :
    Except PyError GenResult × BotorchState × List GenEvent :=
  match tryWithQmcFallback env with
  | (Except.error e, t) => (Except.error e, s, tr ++ t)
  | (Except.ok ce, t) =>
    (Except.ok (ce.1.detach.cpu, torchOnes n,
      [(expectedAcqfValKey, ce.2.tolist)], none), s, tr ++ t)

/-- The per-call arguments of `BotorchModel.gen`. -/
structure GenArgs where
  n : Nat
  bounds : List (Val × Val)
  objectiveWeights : Tensor
  outcomeConstraints : Option (Tensor × Tensor)
  linearConstraints : Option (Tensor × Tensor)
  fixedFeatures : Option IdxValDict
  pendingObservations : Option (List Tensor)
  modelGenOptions : Option GenOptions
  roundingFunc : Option (List Val → List Val)
  targetFidelities : Option IdxValDict

/-- The subsetting step of `gen`: when the `subset_model` option is
enabled, rebind the local model / objective weights / outcome constraints
to the `subset_model` helper's results (its exceptions propagate);
otherwise keep `self.model` and the caller's objective specification
unchanged.  Also records the resolver event at the head of the trace. -/
def genSubsetStep {A : Type} (C : Collabs A) (s : BotorchState)
    (a : GenArgs) (resolveCall : ResolveCall) (useSubset : Bool) :
    Except PyError (Option Model × Tensor × Option (Tensor × Tensor))
      × List GenEvent :=
  if useSubset then
    match C.subsetModel s.model a.objectiveWeights a.outcomeConstraints with
    | Except.error e => (Except.error e, [GenEvent.resolve resolveCall])
    | Except.ok r =>
      (Except.ok (some r.model, r.objectiveWeights, r.outcomeConstraints),
        [GenEvent.resolve resolveCall,
          GenEvent.subset (some r.model) r.objectiveWeights
            r.outcomeConstraints])
  else
    (Except.ok (s.model, a.objectiveWeights, a.outcomeConstraints),
      [GenEvent.resolve resolveCall])

/-- `BotorchModel.gen`: reject truthy `target_fidelities`, resolve
pending/observed points, optionally subset the model, then build and
optimize the acquisition function with the one-shot Sobol fallback, and
package the result (candidates detached and moved to the host, weight one
per candidate, expected acquisition value in the metadata, no candidate
metadata).  Returns the result, the (unchanged) instance state, and the
collaborator trace. -/
def BotorchModel_gen {A : Type} (C : Collabs A) (s : BotorchState)
    (a : GenArgs) :
    Except PyError GenResult × BotorchState × List GenEvent :=
  let options := a.modelGenOptions.getD emptyGenOptions
  let acfOptions := options.acqfKwargs.getD []
  let optimizerOptions := options.optimizerKwargs.getD []
  if pyTruthyDict a.targetFidelities then
    (Except.error (PyError.notImplementedError
      "target_fidelities not implemented for base BotorchModel"), s, [])
  else
    let resolveCall : ResolveCall :=
      ⟨s.Xs, a.pendingObservations, a.objectiveWeights,
        a.outcomeConstraints, a.bounds, a.linearConstraints,
        a.fixedFeatures⟩
    let xpo := C.getXPendingAndObserved resolveCall
    let xPending := xpo.1
    let xObserved := xpo.2
    match genSubsetStep C s a resolveCall (options.subsetModel.getD true) with
    | (Except.error e, tr) => (Except.error e, s, tr)
    | (Except.ok (model, objectiveWeights, outcomeConstraints), tr) =>
      genFinish s a.n
        ⟨C.acqfConstructor, C.acqfOptimizer, model, objectiveWeights,
          outcomeConstraints, xObserved, xPending, acfOptions,
          boundsToTensor s.device a.bounds, a.n,
          C.toInequalityConstraints a.linearConstraints, a.fixedFeatures,
          get_rounding_func a.roundingFunc, optimizerOptions⟩
        tr

/-- `BotorchModel.best_point`: delegate to the best-point recommender,
forwarding the objective specification unchanged (no fitted-state check).
Also returns the recommender-call record for inspection. -/
def BotorchModel_best_point {A : Type} (C : Collabs A) (s : BotorchState)
    (bounds : List (Val × Val)) (objectiveWeights : Tensor)
    (outcomeConstraints linearConstraints : Option (Tensor × Tensor))
    (fixedFeatures : Option IdxValDict)
    (modelGenOptions : Option GenOptions)
    (targetFidelities : Option IdxValDict) :
    Option Tensor × BestPointCall :=
  let call : BestPointCall :=
    ⟨s, bounds, objectiveWeights, outcomeConstraints, linearConstraints,
      fixedFeatures, modelGenOptions, targetFidelities⟩
  (C.bestPointRecommender call, call)

/-- `BotorchModel.cross_validate`: require a fitted model (else
`RuntimeError`), build a throwaway model from the training subset with
`state_dict=None` iff `refit_on_cv` (else a deep copy of the live model's
snapshot), and predict on the held-out points.  The instance state is
returned unchanged; the constructor-call record is returned for
inspection. -/
def BotorchModel_cross_validate {A : Type} (C : Collabs A)
    (cfg : BotorchCfg) (s : BotorchState)
    (XsTrain YsTrain YvarsTrain : List Tensor) (XTest : Tensor) :
    Except PyError (Tensor × Tensor) × BotorchState
      × Option ModelConstructorCall :=
  match s.model with
  | none =>
    (Except.error (PyError.runtimeError
      "Cannot cross-validate model that has not been fitted"), s, none)
  | some m =>
    let stateDict : Option StateDict :=
      if cfg.refitOnCv then none else some (deepcopy m.state_dict)
    let call : ModelConstructorCall :=
      ⟨XsTrain, YsTrain, YvarsTrain, s.taskFeatures, s.fidelityFeatures,
        s.metricNames, stateDict, some cfg.refitOnCv, cfg.useInputWarping,
        cfg.useLoocvPseudoLikelihood⟩
    let model := C.modelConstructor call
    (C.modelPredictor (some model) XTest, s, some call)

/-- `BotorchModel.update`: require a fitted model (else `RuntimeError`),
replace the observation set, and reconstruct the model with
`state_dict=None` iff `refit_on_update and not warm_start_refitting`
(else a deep copy of the live model's snapshot).  Returns the updated
state and the constructor-call record. -/
def BotorchModel_update {A : Type} (C : Collabs A) (cfg : BotorchCfg)
    (s : BotorchState) (Xs Ys Yvars : List Tensor) :
    Except PyError Unit × BotorchState × Option ModelConstructorCall :=
  match s.model with
  | none =>
    (Except.error (PyError.runtimeError
      "Cannot update model that has not been fitted"), s, none)
  | some m =>
    let stateDict : Option StateDict :=
      if cfg.refitOnUpdate && !cfg.warmStartRefitting then none
      else some (deepcopy m.state_dict)
    let call : ModelConstructorCall :=
      ⟨Xs, Ys, Yvars, s.taskFeatures, s.fidelityFeatures, s.metricNames,
        stateDict, some cfg.refitOnUpdate, cfg.useInputWarping,
        cfg.useLoocvPseudoLikelihood⟩
    let model := C.modelConstructor call
    (Except.ok (), ⟨some model, Xs, Ys, Yvars, s.device, s.taskFeatures,
      s.fidelityFeatures, s.metricNames⟩, some call)

/-!
## Modular facade (`BoTorchModel`, `botorch_modular/model.py`)

The modular facade delegates to a `Surrogate` object (set either at
construction or by `fit`) and to an `Acquisition` class.  Only the parts
exercised by the embedded file are modelled: the guarded `surrogate`
property, `predict`, `gen` (via `_instantiate_acquisition` and
`_bounds_as_tensor`) and `best_point`.  The helpers imported from
`botorch_modular.utils` are opaque collaborators.
-/

/-- A fitted modular `Surrogate`, as far as the facade observes it: the
device its tensors live on and its prediction behavior (the torch dtype is
not modelled). -/
structure Surrogate where
  device : Device
  predict : Tensor → Except PyError (Tensor × Tensor)

/-- An opaque BoTorch `AcquisitionFunction` class object (as selected by
`choose_botorch_acqf_class`). -/
structure AcqfClass where
  classId : Nat
deriving DecidableEq, Repr

/-- The argument record of one `acquisition_class` instantiation
performed by `_instantiate_acquisition`. -/
structure AcqInstantiateCall where
  surrogate : Surrogate
  botorchAcqfClass : AcqfClass
  bounds : List (Val × Val)
  objectiveWeights : Tensor
  outcomeConstraints : Option (Tensor × Tensor)
  linearConstraints : Option (Tensor × Tensor)
  fixedFeatures : Option IdxValDict
  pendingObservations : Option (List Tensor)
  targetFidelities : Option IdxValDict
  options : Kwargs

/-- The argument record of one `Acquisition.optimize` invocation. -/
structure ModularOptimizeCall where
  bounds : Tensor
  n : Nat
  inequalityConstraints : Option IneqConstraints
  fixedFeatures : Option IdxValDict
  roundingFunc : Option (Tensor → Tensor)
  optimizerOptions : Kwargs

/-- An instantiated `Acquisition` object, as far as `gen` observes it. -/
structure Acquisition where
  optimize : ModularOptimizeCall → Except PyError (Tensor × Tensor)

/-- The mutable instance state of a modular `BoTorchModel`:
`_surrogate`, `_botorch_acqf_class` and the stored acquisition options. -/
structure ModularState where
  surrogate : Option Surrogate
  botorchAcqfClass : Option AcqfClass
  acquisitionOptions : Kwargs

/-- The collaborators of the modular facade that live outside the
embedded file (`construct_acquisition_and_optimizer_options`,
`choose_botorch_acqf_class`, `_to_inequality_constraints`) together with
the pluggable `acquisition_class`. -/
structure ModularCollabs where
  constructAcqOptOptions : Kwargs → Option GenOptions → Kwargs × Kwargs
  chooseBotorchAcqfClass : Unit → AcqfClass
  acquisitionClass : AcqInstantiateCall → Acquisition
  toInequalityConstraints : Option (Tensor × Tensor) →
    Option IneqConstraints

/-- The guarded `surrogate` property: raises `ValueError` while no
surrogate has been set. -/
def ModularBoTorch_surrogate (s : ModularState) :
    Except PyError Surrogate :=
  match s.surrogate with
  | none =>
    Except.error (PyError.valueError "Surrogate has not yet been set.")
  | some sg => Except.ok sg

/-- Modular `BoTorchModel.predict`: `self.surrogate.predict(X)`. -/
def ModularBoTorch_predict (s : ModularState) (X : Tensor) :
    Except PyError (Tensor × Tensor) :=
  match ModularBoTorch_surrogate s with
  | Except.error e => Except.error e
  | Except.ok sg => sg.predict X

/-- Modular `BoTorchModel.gen`: split the options, instantiate the
acquisition (auto-selecting and caching the BoTorch acquisition-function
class when unset, then reading the guarded `surrogate` property), wrap the
rounding function, optimize, and package the result exactly as the flat
facade does.  Returns the result, the post state, and the list of
optimizer outcomes observed. -/
def ModularBoTorch_gen (MC : ModularCollabs) (s : ModularState)
    (a : GenArgs) :
    Except PyError GenResult × ModularState
      × List (Except PyError (Tensor × Tensor)) :=
  let opts := MC.constructAcqOptOptions s.acquisitionOptions
    a.modelGenOptions
  let chosen : AcqfClass × ModularState :=
    match s.botorchAcqfClass with
    | none =>
      let c := MC.chooseBotorchAcqfClass ()
      (c, ⟨s.surrogate, some c, s.acquisitionOptions⟩)
    | some c => (c, s)
  let s1 := chosen.2
  match s1.surrogate with
  | none =>
    (Except.error (PyError.valueError "Surrogate has not yet been set."),
      s1, [])
  | some sg =>
    let acqf := MC.acquisitionClass
      ⟨sg, chosen.1, a.bounds, a.objectiveWeights, a.outcomeConstraints,
        a.linearConstraints, a.fixedFeatures, a.pendingObservations,
        a.targetFidelities, opts.1⟩
    let botorchRoundingFunc := get_rounding_func a.roundingFunc
    let optRes := acqf.optimize
      ⟨boundsToTensor (some sg.device) a.bounds, a.n,
        MC.toInequalityConstraints a.linearConstraints, a.fixedFeatures,
        botorchRoundingFunc, opts.2⟩
    match optRes with
    | Except.error e => (Except.error e, s1, [Except.error e])
    | Except.ok ce =>
      (Except.ok (ce.1.detach.cpu, torchOnes a.n,
        [(expectedAcqfValKey, ce.2.tolist)], none), s1, [Except.ok ce])

/-- Modular `BoTorchModel.best_point`: unimplemented; unconditionally
raises `NotImplementedError("Coming soon.")`. -/
def ModularBoTorch_best_point (_s : ModularState)
    (_bounds : List (Val × Val)) (_objectiveWeights : Tensor)
    (_outcomeConstraints _linearConstraints : Option (Tensor × Tensor))
    (_fixedFeatures : Option IdxValDict)
    (_modelGenOptions : Option GenOptions)
    (_targetFidelities : Option IdxValDict) :
    Except PyError (Option Tensor) :=
  Except.error (PyError.notImplementedError "Coming soon.")

/-!
## Fixtures: concrete collaborators and states used by closed theorems
-/

/-- The flag defaults of `BotorchModel.__init__`. -/
def defaultBotorchCfg : BotorchCfg := ⟨false, true, true, false, false⟩

/-- A concrete fitted model with a one-parameter snapshot. -/
def sampleModel : Model := ⟨[("theta", ⟨[1], [2], Device.cpu, false⟩)]⟩

/-- A concrete objective-weight vector. -/
def sampleObjWeights : Tensor := ⟨[1], [1], Device.cpu, false⟩

/-- A concrete fitted flat-facade state. -/
def fittedSampleState : BotorchState :=
  ⟨some sampleModel, [⟨[1, 1], [0], Device.cpu, false⟩],
    [⟨[1, 1], [1], Device.cpu, false⟩],
    [⟨[1, 1], [7], Device.cpu, false⟩], some Device.cpu, [], [],
    ["m1"]⟩

/-- Concrete well-behaved collaborators over a unit acquisition type. -/
def unitAcqfCollabs : Collabs Unit :=
  ⟨fun _ => sampleModel,
   fun _ X => Except.ok (X, X),
   fun _ => Except.ok (),
   fun c => Except.ok
     (⟨[c.n, 1], List.replicate c.n 5, Device.cuda, true⟩,
      ⟨[c.n], List.replicate c.n 9, Device.cuda, true⟩),
   fun _ => none,
   fun _ => (none, none),
   fun _ w oc => Except.ok ⟨sampleModel, w, oc⟩,
   fun _ => none,
   fun l _ => l.map Int.toNat⟩

/-- Concrete `gen` arguments (one candidate, unit box). -/
def sampleGenArgs (tf : Option IdxValDict) : GenArgs :=
  ⟨1, [(0, 1)], sampleObjWeights, none, none, none, none, none, none, tf⟩

/-- Replace only the `target_fidelities` argument of a `gen` call. -/
def setTargetFidelities (a : GenArgs) (tf : Option IdxValDict) : GenArgs :=
  ⟨a.n, a.bounds, a.objectiveWeights, a.outcomeConstraints,
    a.linearConstraints, a.fixedFeatures, a.pendingObservations,
    a.modelGenOptions, a.roundingFunc, tf⟩

/-- The resolver call `gen` makes for `sampleGenArgs` on a fresh state. -/
def sampleResolveCall : ResolveCall :=
  ⟨[], none, sampleObjWeights, none, [(0, 1)], none, none⟩

/-- The acquisition-constructor call `gen` makes for `sampleGenArgs`. -/
def sampleAcqfCall : AcqfCall :=
  ⟨some sampleModel, sampleObjWeights, none, none, none, [], false⟩

/-- The candidates `unitAcqfCollabs`' optimizer returns for `n = 1`. -/
def sampleCandidates : Tensor := ⟨[1, 1], [5], Device.cuda, true⟩

/-- The expected acquisition values returned for `n = 1`. -/
def sampleEav : Tensor := ⟨[1], [9], Device.cuda, true⟩

/-- The trace of `gen` on `unitAcqfCollabs` with `sampleGenArgs`. -/
def sampleGenTrace : List GenEvent :=
  [GenEvent.resolve sampleResolveCall,
   GenEvent.subset (some sampleModel) sampleObjWeights none,
   GenEvent.construct sampleAcqfCall,
   GenEvent.optimize (Except.ok (sampleCandidates, sampleEav))]

/-!
## Trace bookkeeping lemmas
-/

theorem constructCalls_append (t1 t2 : List GenEvent) :
    constructCalls (t1 ++ t2) = constructCalls t1 ++ constructCalls t2 := by
  induction t1 with
  | nil => rfl
  | cons e tr ih => cases e <;> simp [constructCalls, ih]

theorem makeAndOptimize_constructs {A : Type} (env : AcqfEnv A)
    (b : Bool) :
    constructCalls (makeAndOptimizeAcqf env b).2 = [acqfCallOf env b] := by
  simp only [makeAndOptimizeAcqf]
  split
  · simp [constructCalls]
  · split <;> simp [constructCalls]

theorem makeAndOptimize_ok_mem {A : Type} (env : AcqfEnv A) (b : Bool)
    (ce : Tensor × Tensor)
    (h : (makeAndOptimizeAcqf env b).1 = Except.ok ce) :
    GenEvent.optimize (Except.ok ce) ∈ (makeAndOptimizeAcqf env b).2 := by
  simp only [makeAndOptimizeAcqf] at h ⊢
  split at h
  · simp at h
  · split at h
    · simp at h
    · simp only [Except.ok.injEq] at h
      subst h
      simp

theorem tryFallback_trace_structure {A : Type} (env : AcqfEnv A) :
    (tryWithQmcFallback env).2 = (makeAndOptimizeAcqf env false).2 ∨
    (tryWithQmcFallback env).2 =
      (makeAndOptimizeAcqf env false).2 ++ (makeAndOptimizeAcqf env true).2 := by
  simp only [tryWithQmcFallback]
  split
  · rename_i ce t1 heq
    left
    rw [heq]
  · rename_i e t1 heq
    split
    · split
      · right
        rw [heq]
      · left
        rw [heq]
    · left
      rw [heq]

theorem tryFallback_count_le_two {A : Type} (env : AcqfEnv A) :
    constructCount (tryWithQmcFallback env).2 ≤ 2 := by
  have h1 : ∀ b : Bool, constructCount (makeAndOptimizeAcqf env b).2 = 1 := by
    intro b
    rw [constructCount, makeAndOptimize_constructs]
    rfl
  rcases tryFallback_trace_structure env with h | h
  · rw [h, h1 false]
    omega
  · rw [h, constructCount, constructCalls_append]
    have e1 := h1 false
    have e2 := h1 true
    rw [constructCount] at e1 e2
    simp [List.length_append, e1, e2]

theorem tryFallback_retry {A : Type} (env : AcqfEnv A) (msg : String)
    (h : (makeAndOptimizeAcqf env false).1 =
      Except.error (PyError.unsupportedError msg))
    (hs : strContains msg sobolLimitMsg = true) :
    tryWithQmcFallback env =
      ((makeAndOptimizeAcqf env true).1,
        (makeAndOptimizeAcqf env false).2 ++ (makeAndOptimizeAcqf env true).2) := by
  simp only [tryWithQmcFallback]
  split
  · rename_i ce t1 heq
    rw [heq] at h
    simp at h
  · rename_i e t1 heq
    rw [heq] at h
    simp only [Except.error.injEq] at h
    subst h
    simp only [hs, if_true]
    have ht : t1 = (makeAndOptimizeAcqf env false).2 := by rw [heq]
    rw [ht]

theorem tryFallback_raise {A : Type} (env : AcqfEnv A) (e : PyError)
    (h : (makeAndOptimizeAcqf env false).1 = Except.error e)
    (hns : isSobolDimensionError e = false) :
    tryWithQmcFallback env =
      (Except.error e, (makeAndOptimizeAcqf env false).2) := by
  simp only [tryWithQmcFallback]
  split
  · rename_i ce t1 heq
    rw [heq] at h
    simp at h
  · rename_i e' t1 heq
    rw [heq] at h
    simp only [Except.error.injEq] at h
    subst h
    have ht : t1 = (makeAndOptimizeAcqf env false).2 := by rw [heq]
    cases e' with
    | unsupportedError msg =>
      rw [isSobolDimensionError] at hns
      rw [ht]
      simp [hns]
    | notImplementedError msg => rw [ht]
    | runtimeError msg => rw [ht]
    | valueError msg => rw [ht]
    | notFittedError msg => rw [ht]

theorem genSubsetStep_no_constructs {A : Type} (C : Collabs A)
    (s : BotorchState) (a : GenArgs) (rc : ResolveCall) (u : Bool) :
    constructCalls (genSubsetStep C s a rc u).2 = [] := by
  simp only [genSubsetStep]
  split
  · split <;> rfl
  · rfl

theorem genSubsetStep_trace_head {A : Type} (C : Collabs A)
    (s : BotorchState) (a : GenArgs) (rc : ResolveCall) (u : Bool) :
    ∃ rest, (genSubsetStep C s a rc u).2 = GenEvent.resolve rc :: rest := by
  simp only [genSubsetStep]
  split
  · split
    · exact ⟨[], rfl⟩
    · exact ⟨_, rfl⟩
  · exact ⟨[], rfl⟩

theorem genSubsetStep_snd_no_constructs {A : Type} (C : Collabs A)
    (s : BotorchState) (a : GenArgs) (rc : ResolveCall) (u : Bool)
    (res : Except PyError (Option Model × Tensor × Option (Tensor × Tensor)))
    (tr : List GenEvent) (h : genSubsetStep C s a rc u = (res, tr)) :
    constructCalls tr = [] := by
  have h0 := genSubsetStep_no_constructs C s a rc u
  rw [h] at h0
  exact h0

theorem genFinish_trace {A : Type} (s : BotorchState) (n : Nat)
    (env : AcqfEnv A) (tr : List GenEvent) :
    (genFinish s n env tr).2.2 = tr ++ (tryWithQmcFallback env).2 := by
  simp only [genFinish]
  split
  · rename_i e t heq
    rw [heq]
  · rename_i ce t heq
    rw [heq]

theorem gen_constructCount_le_two {A : Type} (C : Collabs A)
    (s : BotorchState) (a : GenArgs) :
    constructCount (BotorchModel_gen C s a).2.2 ≤ 2 := by
  simp only [BotorchModel_gen]
  split
  · simp [constructCount, constructCalls]
  · split
    · rename_i e tr heq
      have h0 := genSubsetStep_snd_no_constructs C s a _ _ _ _ heq
      simp [constructCount, h0]
    · rename_i model ow oc tr heq
      have h0 := genSubsetStep_snd_no_constructs C s a _ _ _ _ heq
      rw [constructCount, genFinish_trace, constructCalls_append, h0]
      simpa [constructCount] using tryFallback_count_le_two _

/-- C1: on the flat facade, the acquisition constructor is invoked at most
twice per `gen` call; when the first construction-and-optimization attempt
fails with an `UnsupportedError` whose message contains the Sobol sampler
dimension-limit text, the acquisition function is rebuilt exactly once
with `qmc` disabled and the retry's outcome (success or failure) becomes
the call's outcome; any other error from the first attempt propagates
unchanged. -/
theorem claim_C1_sobol_fallback (A : Type) :
    (∀ (C : Collabs A) (s : BotorchState) (a : GenArgs),
      constructCount (BotorchModel_gen C s a).2.2 ≤ 2) ∧
    (∀ (env : AcqfEnv A) (msg : String),
      (makeAndOptimizeAcqf env false).1 =
        Except.error (PyError.unsupportedError msg) →
      strContains msg sobolLimitMsg = true →
      (tryWithQmcFallback env).1 = (makeAndOptimizeAcqf env true).1 ∧
      constructCalls (tryWithQmcFallback env).2 =
        [acqfCallOf env false, acqfCallOf env true] ∧
      (acqfCallOf env true).qmcOverride = true) ∧
    (∀ (env : AcqfEnv A) (e : PyError),
      (makeAndOptimizeAcqf env false).1 = Except.error e →
      isSobolDimensionError e = false →
      tryWithQmcFallback env =
        (Except.error e, (makeAndOptimizeAcqf env false).2)) := by
  refine ⟨fun C s a => gen_constructCount_le_two C s a,
    fun env msg h hs => ?_, fun env e h hns => tryFallback_raise env e h hns⟩
  have hr := tryFallback_retry env msg h hs
  refine ⟨by rw [hr], ?_, rfl⟩
  rw [hr]
  show constructCalls
    ((makeAndOptimizeAcqf env false).2 ++ (makeAndOptimizeAcqf env true).2)
    = _
  rw [constructCalls_append, makeAndOptimize_constructs,
    makeAndOptimize_constructs]
  rfl

/-- An acquisition environment whose constructor fails with the Sobol
dimension-limit `UnsupportedError` unless `qmc` is overridden off. -/
def sobolFailEnv : AcqfEnv Unit :=
  ⟨fun call =>
      if call.qmcOverride then Except.ok ()
      else Except.error (PyError.unsupportedError sobolLimitMsg),
   fun c => Except.ok
     (⟨[c.n, 1], List.replicate c.n 5, Device.cuda, true⟩,
      ⟨[c.n], List.replicate c.n 9, Device.cuda, true⟩),
   some sampleModel, sampleObjWeights, none, none, none, [],
   boundsToTensor none [(0, 1)], 1, none, none, none, []⟩

/-- Witness for C1: with a constructor that fails with the Sobol overflow
message only under default sampling, the fallback succeeds with the
`qmc`-disabled rebuild, and a concrete full `gen` call constructs at most
twice. -/
theorem claim_C1_sobol_fallback_witness :
    ((tryWithQmcFallback sobolFailEnv).1 =
        (makeAndOptimizeAcqf sobolFailEnv true).1 ∧
      constructCalls (tryWithQmcFallback sobolFailEnv).2 =
        [acqfCallOf sobolFailEnv false, acqfCallOf sobolFailEnv true] ∧
      (acqfCallOf sobolFailEnv true).qmcOverride = true) ∧
    constructCount (BotorchModel_gen unitAcqfCollabs initBotorchState
      (sampleGenArgs none)).2.2 ≤ 2 :=
  ⟨(claim_C1_sobol_fallback Unit).2.1 sobolFailEnv sobolLimitMsg rfl
      (by decide),
   (claim_C1_sobol_fallback Unit).1 unitAcqfCollabs initBotorchState
      (sampleGenArgs none)⟩

/-- C6: `get_rounding_func` returns `None` (absence, not a no-op wrapper)
when no rounding function is supplied, and otherwise wraps the rounding
function so that on a `(q, d)` batch it equals applying the function
independently to each of the `q` rows, and on an `(s, q, d)` batch it
equals applying it per (sample, row) pair, reassembled to the original
shape. -/
theorem claim_C6_rounding_adapter :
    (get_rounding_func none = none) ∧
    (∀ f : List Val → List Val,
      get_rounding_func (some f) = some (botorchRoundingWrapper f)) ∧
    (∀ (f : List Val → List Val) (rows : List (List Val)) (d : Nat)
        (dev : Device) (g : Bool),
      0 < d → (∀ r ∈ rows, r.length = d) →
      botorchRoundingWrapper f ⟨[rows.length, d], rows.flatten, dev, g⟩ =
        ⟨[rows.length, d], (rows.map f).flatten, dev, g⟩) ∧
    (∀ (f : List Val → List Val) (cube : List (List (List Val)))
        (sN q d : Nat) (dev : Device) (g : Bool),
      0 < d → (∀ p ∈ cube, ∀ r ∈ p, r.length = d) →
      botorchRoundingWrapper f
          ⟨[sN, q, d], (cube.map List.flatten).flatten, dev, g⟩ =
        ⟨[sN, q, d],
          ((cube.map (fun p => p.map f)).map List.flatten).flatten, dev,
          g⟩) := by
  refine ⟨rfl, fun f => rfl, ?_, ?_⟩
  · intro f rows d dev g hd hlen
    have hG : ([rows.length, d] : List Nat).getLastD 0 = d := rfl
    simp only [botorchRoundingWrapper, hG]
    rw [listChunks_flatten d hd rows hlen]
  · intro f cube sN q d dev g hd hlen
    have hG : ([sN, q, d] : List Nat).getLastD 0 = d := rfl
    simp only [botorchRoundingWrapper, hG]
    have hdata : (cube.map List.flatten).flatten = cube.flatten.flatten :=
      List.flatten_flatten.symm
    have hrows : ∀ r ∈ cube.flatten, r.length = d := by
      intro r hr
      rw [List.mem_flatten] at hr
      obtain ⟨p, hp, hrp⟩ := hr
      exact hlen p hp r hrp
    rw [hdata, listChunks_flatten d hd cube.flatten hrows]
    have hmap : cube.flatten.map f = (cube.map (fun p => p.map f)).flatten :=
      List.map_flatten f cube
    rw [hmap, List.flatten_flatten]

/-- Witness for C6: the wrapper applied to concrete `(2, 2)` and
`(2, 1, 2)` batches with a concrete rounding function. -/
theorem claim_C6_rounding_adapter_witness :
    botorchRoundingWrapper (fun r => r.map (fun v => v + 1))
        ⟨[2, 2], ([[1, 2], [3, 4]] : List (List Val)).flatten, Device.cpu,
          false⟩ =
      ⟨[2, 2],
        (([[1, 2], [3, 4]] : List (List Val)).map
          (List.map (fun v => v + 1))).flatten, Device.cpu, false⟩ ∧
    botorchRoundingWrapper (fun r => r.map (fun v => v + 1))
        ⟨[2, 1, 2],
          (([[[1, 2]], [[3, 4]]] : List (List (List Val))).map
            List.flatten).flatten, Device.cuda, true⟩ =
      ⟨[2, 1, 2],
        ((([[[1, 2]], [[3, 4]]] : List (List (List Val))).map
          (fun p => p.map (List.map (fun v => v + 1)))).map
            List.flatten).flatten, Device.cuda, true⟩ :=
  ⟨claim_C6_rounding_adapter.2.2.1 (fun r => r.map (fun v => v + 1))
      [[1, 2], [3, 4]] 2 Device.cpu false (by decide) (by decide),
   claim_C6_rounding_adapter.2.2.2 (fun r => r.map (fun v => v + 1))
      [[[1, 2]], [[3, 4]]] 2 1 2 Device.cuda true (by decide) (by decide)⟩

theorem genSubsetStep_snd_head {A : Type} (C : Collabs A)
    (s : BotorchState) (a : GenArgs) (rc : ResolveCall) (u : Bool)
    (res : Except PyError (Option Model × Tensor × Option (Tensor × Tensor)))
    (tr : List GenEvent) (h : genSubsetStep C s a rc u = (res, tr)) :
    ∃ rest, tr = GenEvent.resolve rc :: rest := by
  obtain ⟨rest, hr⟩ := genSubsetStep_trace_head C s a rc u
  rw [h] at hr
  exact ⟨rest, hr⟩

/-- C7 (counterexample): supplying `target_fidelities={}` (an empty dict)
to the flat facade's `gen` does not raise `NotImplementedError`; the call
runs the normal pipeline and succeeds. -/
theorem claim_C7_counterexample :
    (BotorchModel_gen unitAcqfCollabs initBotorchState
      (sampleGenArgs (some []))).1 =
      Except.ok (⟨[1, 1], [5], Device.cpu, false⟩, torchOnes 1,
        [(expectedAcqfValKey, [9])], none) := by
  decide

/-- C7 (amended): supplying a *non-empty* `target_fidelities` mapping to
the flat facade's `gen` fails with `NotImplementedError`, surfaced before
resolving pending/observed points, subsetting, acquisition construction or
optimization (the collaborator trace is empty) and without mutating any
facade state. -/
theorem claim_C7_target_fidelities_fail {A : Type} (C : Collabs A)
    (s : BotorchState) (a : GenArgs)
    (h : pyTruthyDict a.targetFidelities = true) :
    BotorchModel_gen C s a =
      (Except.error (PyError.notImplementedError
        "target_fidelities not implemented for base BotorchModel"), s,
        []) := by
  simp [BotorchModel_gen, h]

/-- Witness for the amended C7 at a concrete non-empty mapping. -/
theorem claim_C7_target_fidelities_fail_witness :
    BotorchModel_gen unitAcqfCollabs initBotorchState
      (sampleGenArgs (some [(0, 2)])) =
      (Except.error (PyError.notImplementedError
        "target_fidelities not implemented for base BotorchModel"),
       initBotorchState, []) :=
  claim_C7_target_fidelities_fail unitAcqfCollabs initBotorchState
    (sampleGenArgs (some [(0, 2)])) (by decide)

/-- C10: the flat facade's `target_fidelities` guard tests Python
truthiness, not presence: an empty dict behaves exactly like `None` (the
call proceeds into the pipeline, reaching the resolver first), and
`NotImplementedError` is raised exactly for a non-empty mapping. -/
theorem claim_C10_truthiness_guard {A : Type} (C : Collabs A)
    (s : BotorchState) (a : GenArgs) :
    (BotorchModel_gen C s (setTargetFidelities a (some [])) =
      BotorchModel_gen C s (setTargetFidelities a none)) ∧
    (pyTruthyDict a.targetFidelities = false →
      ∃ rest, (BotorchModel_gen C s a).2.2 =
        GenEvent.resolve ⟨s.Xs, a.pendingObservations, a.objectiveWeights,
          a.outcomeConstraints, a.bounds, a.linearConstraints,
          a.fixedFeatures⟩ :: rest) ∧
    (pyTruthyDict a.targetFidelities = true →
      (BotorchModel_gen C s a).1 =
        Except.error (PyError.notImplementedError
          "target_fidelities not implemented for base BotorchModel")) := by
  refine ⟨rfl, ?_, ?_⟩
  · intro h
    simp only [BotorchModel_gen, h, Bool.false_eq_true, if_false]
    split
    · rename_i e tr heq
      obtain ⟨rest, hr⟩ := genSubsetStep_snd_head C s a _ _ _ _ heq
      exact ⟨rest, hr⟩
    · rename_i model ow oc tr heq
      obtain ⟨rest, hr⟩ := genSubsetStep_snd_head C s a _ _ _ _ heq
      have hgen : ∀ (env : AcqfEnv A) (n : Nat), ∃ rest2,
          (genFinish s n env tr).2.2 =
            GenEvent.resolve ⟨s.Xs, a.pendingObservations,
              a.objectiveWeights, a.outcomeConstraints, a.bounds,
              a.linearConstraints, a.fixedFeatures⟩ :: rest2 := by
        intro env n
        rw [genFinish_trace, hr, List.cons_append]
        exact ⟨rest ++ (tryWithQmcFallback env).2, rfl⟩
      exact hgen _ _
  · intro h
    simp [BotorchModel_gen, h]

/-- Witness for C10: a concrete non-empty mapping is rejected and a
concrete falsy (`None`) call reaches the resolver. -/
theorem claim_C10_truthiness_guard_witness :
    (BotorchModel_gen unitAcqfCollabs initBotorchState
      (sampleGenArgs (some [(0, 1)]))).1 =
      Except.error (PyError.notImplementedError
        "target_fidelities not implemented for base BotorchModel") ∧
    ∃ rest, (BotorchModel_gen unitAcqfCollabs initBotorchState
      (sampleGenArgs none)).2.2 =
        GenEvent.resolve sampleResolveCall :: rest :=
  ⟨(claim_C10_truthiness_guard unitAcqfCollabs initBotorchState
      (sampleGenArgs (some [(0, 1)]))).2.2 (by decide),
   (claim_C10_truthiness_guard unitAcqfCollabs initBotorchState
      (sampleGenArgs none)).2.1 (by decide)⟩

/-- A concrete fitted modular facade state: a surrogate is set (as after
`fit`, or a surrogate supplied at construction), and a BoTorch
acquisition-function class is selected. -/
def fittedModularState : ModularState :=
  ⟨some ⟨Device.cpu, fun X => Except.ok (X, X)⟩, some ⟨0⟩, []⟩

/-- C8 (counterexample): on a concrete *fitted* modular facade, a
`best_point` call does not delegate to any recommender and does not
return a candidate-or-none; it raises
`NotImplementedError("Coming soon.")`. -/
theorem claim_C8_counterexample :
    ModularBoTorch_best_point fittedModularState [(0, 1)] sampleObjWeights
      none none none none none =
      Except.error (PyError.notImplementedError "Coming soon.") := rfl

/-- C8 (amended): the flat facade's `best_point` delegates to the
pluggable best-point recommender, forwarding `model=self`, bounds,
objective weights, outcome/linear constraints, fixed features, gen options
and target fidelities unchanged and returning its result; the modular
facade's `best_point` is unimplemented and unconditionally raises
`NotImplementedError("Coming soon.")`. -/
theorem claim_C8_best_point_delegation {A : Type} (C : Collabs A)
    (s : BotorchState) (ms : ModularState) (bounds : List (Val × Val))
    (ow : Tensor) (oc lc : Option (Tensor × Tensor))
    (ff : Option IdxValDict) (mgo : Option GenOptions)
    (tf : Option IdxValDict) :
    (BotorchModel_best_point C s bounds ow oc lc ff mgo tf =
      (C.bestPointRecommender ⟨s, bounds, ow, oc, lc, ff, mgo, tf⟩,
        ⟨s, bounds, ow, oc, lc, ff, mgo, tf⟩)) ∧
    (ModularBoTorch_best_point ms bounds ow oc lc ff mgo tf =
      Except.error (PyError.notImplementedError "Coming soon.")) :=
  ⟨rfl, rfl⟩

/-- Is the outcome a raised `NotFittedError`? -/
def resultErrIsNotFitted {α : Type} : Except PyError α → Bool
  | Except.error e => errIsNotFitted e
  | Except.ok _ => false

/-- C2 (counterexample): calling `update` on a never-fitted flat facade
fails with `RuntimeError`, not `NotFittedError`. -/
theorem claim_C2_counterexample :
    (BotorchModel_update unitAcqfCollabs defaultBotorchCfg
      initBotorchState [] [] []).1 =
      Except.error (PyError.runtimeError
        "Cannot update model that has not been fitted") ∧
    resultErrIsNotFitted (BotorchModel_update unitAcqfCollabs
      defaultBotorchCfg initBotorchState [] [] []).1 = false :=
  ⟨rfl, rfl⟩

/-- C2 (amended): before any `fit`, the flat facade's `update` and
`cross_validate` fail with `RuntimeError` (leaving the state unchanged and
calling no constructor); the flat `predict` performs no fitted-state check
at all and forwards the absent (`None`) model to the predictor
collaborator; the modular facade's `predict` and `gen` fail with the
surrogate property's `ValueError`.  No path raises `NotFittedError`. -/
theorem claim_C2_unfitted_behavior :
    (∀ (A : Type) (C : Collabs A) (cfg : BotorchCfg) (s : BotorchState)
        (Xs Ys Yvars : List Tensor), s.model = none →
      BotorchModel_update C cfg s Xs Ys Yvars =
        (Except.error (PyError.runtimeError
          "Cannot update model that has not been fitted"), s, none)) ∧
    (∀ (A : Type) (C : Collabs A) (cfg : BotorchCfg) (s : BotorchState)
        (Xs Ys Yvars : List Tensor) (XTest : Tensor), s.model = none →
      BotorchModel_cross_validate C cfg s Xs Ys Yvars XTest =
        (Except.error (PyError.runtimeError
          "Cannot cross-validate model that has not been fitted"), s,
          none)) ∧
    (∀ (A : Type) (C : Collabs A) (s : BotorchState) (X : Tensor),
      s.model = none →
      BotorchModel_predict C s X = C.modelPredictor none X) ∧
    (∀ (ms : ModularState) (X : Tensor), ms.surrogate = none →
      ModularBoTorch_predict ms X =
        Except.error (PyError.valueError
          "Surrogate has not yet been set.")) ∧
    (∀ (MC : ModularCollabs) (ms : ModularState) (a : GenArgs),
      ms.surrogate = none →
      (ModularBoTorch_gen MC ms a).1 =
        Except.error (PyError.valueError
          "Surrogate has not yet been set.")) := by
  refine ⟨?_, ?_, ?_, ?_, ?_⟩
  · intro A C cfg s Xs Ys Yvars h
    simp [BotorchModel_update, h]
  · intro A C cfg s Xs Ys Yvars XTest h
    simp [BotorchModel_cross_validate, h]
  · intro A C s X h
    simp [BotorchModel_predict, h]
  · intro ms X h
    simp [ModularBoTorch_predict, ModularBoTorch_surrogate, h]
  · intro MC ms a h
    cases hc : ms.botorchAcqfClass <;>
      simp [ModularBoTorch_gen, hc, h]

/-- Witness for the amended C2 at concrete never-fitted states. -/
theorem claim_C2_unfitted_behavior_witness :
    BotorchModel_update unitAcqfCollabs defaultBotorchCfg initBotorchState
      [] [] [] =
      (Except.error (PyError.runtimeError
        "Cannot update model that has not been fitted"), initBotorchState,
        none) ∧
    ModularBoTorch_predict ⟨none, none, []⟩ sampleObjWeights =
      Except.error (PyError.valueError
        "Surrogate has not yet been set.") :=
  ⟨claim_C2_unfitted_behavior.1 Unit unitAcqfCollabs defaultBotorchCfg
      initBotorchState [] [] [] rfl,
   claim_C2_unfitted_behavior.2.2.2.1 ⟨none, none, []⟩ sampleObjWeights
      rfl⟩

/-- C4: on a fitted flat facade, `update` passes `state_dict=None` to the
model constructor exactly when `refit_on_update` is true and
`warm_start_refitting` is false (cold start); in every other flag
combination it passes a deep copy of the live model's current parameter
snapshot. -/
theorem claim_C4_update_warm_start {A : Type} (C : Collabs A)
    (cfg : BotorchCfg) (s : BotorchState) (m : Model)
    (Xs Ys Yvars : List Tensor) (h : s.model = some m) :
    ((cfg.refitOnUpdate = true ∧ cfg.warmStartRefitting = false) →
      (BotorchModel_update C cfg s Xs Ys Yvars).2.2 =
        some ⟨Xs, Ys, Yvars, s.taskFeatures, s.fidelityFeatures,
          s.metricNames, none, some cfg.refitOnUpdate,
          cfg.useInputWarping, cfg.useLoocvPseudoLikelihood⟩) ∧
    (¬(cfg.refitOnUpdate = true ∧ cfg.warmStartRefitting = false) →
      (BotorchModel_update C cfg s Xs Ys Yvars).2.2 =
        some ⟨Xs, Ys, Yvars, s.taskFeatures, s.fidelityFeatures,
          s.metricNames, some (deepcopy m.state_dict),
          some cfg.refitOnUpdate, cfg.useInputWarping,
          cfg.useLoocvPseudoLikelihood⟩) := by
  constructor
  · rintro ⟨h1, h2⟩
    simp [BotorchModel_update, h, h1, h2]
  · intro hn
    have hcond : (cfg.refitOnUpdate && !cfg.warmStartRefitting) = false := by
      cases hru : cfg.refitOnUpdate <;>
        cases hws : cfg.warmStartRefitting <;> simp_all
    simp [BotorchModel_update, h, hcond]

/-- Witness for C4 with `refit_on_update=True, warm_start_refitting=False`
on a concrete fitted facade: the constructor received `state_dict=None`. -/
theorem claim_C4_update_warm_start_witness :
    (BotorchModel_update unitAcqfCollabs ⟨false, true, false, false, false⟩
      fittedSampleState [] [] []).2.2 =
      some ⟨[], [], [], fittedSampleState.taskFeatures,
        fittedSampleState.fidelityFeatures, fittedSampleState.metricNames,
        none, some true, false, false⟩ :=
  (claim_C4_update_warm_start unitAcqfCollabs
    ⟨false, true, false, false, false⟩ fittedSampleState sampleModel
    [] [] [] rfl).1 ⟨rfl, rfl⟩

/-- C5: on a fitted flat facade, `cross_validate` builds a throwaway model
from the training subset (passing `state_dict=None` when `refit_on_cv` is
true, else a deep copy of the live model's snapshot), predicts with it on
the held-out points, and leaves the facade state — live model and stored
`Xs`/`Ys`/`Yvars` — unchanged. -/
theorem claim_C5_cross_validate_throwaway {A : Type} (C : Collabs A)
    (cfg : BotorchCfg) (s : BotorchState) (m : Model)
    (XsTrain YsTrain YvarsTrain : List Tensor) (XTest : Tensor)
    (h : s.model = some m) :
    BotorchModel_cross_validate C cfg s XsTrain YsTrain YvarsTrain XTest =
      (C.modelPredictor
        (some (C.modelConstructor
          ⟨XsTrain, YsTrain, YvarsTrain, s.taskFeatures,
            s.fidelityFeatures, s.metricNames,
            (if cfg.refitOnCv then none
              else some (deepcopy m.state_dict)),
            some cfg.refitOnCv, cfg.useInputWarping,
            cfg.useLoocvPseudoLikelihood⟩))
        XTest, s,
       some ⟨XsTrain, YsTrain, YvarsTrain, s.taskFeatures,
         s.fidelityFeatures, s.metricNames,
         (if cfg.refitOnCv then none else some (deepcopy m.state_dict)),
         some cfg.refitOnCv, cfg.useInputWarping,
         cfg.useLoocvPseudoLikelihood⟩) := by
  simp [BotorchModel_cross_validate, h]

/-- Witness for C5 on a concrete fitted facade with `refit_on_cv=True`:
throwaway constructor call with `state_dict=None`, prediction on the
held-out point, state unchanged. -/
theorem claim_C5_cross_validate_throwaway_witness :
    BotorchModel_cross_validate unitAcqfCollabs
      ⟨true, true, true, false, false⟩ fittedSampleState [] [] []
      sampleObjWeights =
      (unitAcqfCollabs.modelPredictor
        (some (unitAcqfCollabs.modelConstructor
          ⟨[], [], [], fittedSampleState.taskFeatures,
            fittedSampleState.fidelityFeatures,
            fittedSampleState.metricNames, none, some true, false,
            false⟩))
        sampleObjWeights, fittedSampleState,
       some ⟨[], [], [], fittedSampleState.taskFeatures,
         fittedSampleState.fidelityFeatures,
         fittedSampleState.metricNames, none, some true, false, false⟩) :=
  claim_C5_cross_validate_throwaway unitAcqfCollabs
    ⟨true, true, true, false, false⟩ fittedSampleState sampleModel
    [] [] [] sampleObjWeights rfl

theorem tryFallback_construct_fields {A : Type} (env : AcqfEnv A) :
    ∀ c ∈ constructCalls (tryWithQmcFallback env).2,
      c.model = env.model ∧ c.objectiveWeights = env.objectiveWeights ∧
      c.outcomeConstraints = env.outcomeConstraints := by
  intro c hc
  rcases tryFallback_trace_structure env with h | h <;> rw [h] at hc
  · rw [makeAndOptimize_constructs] at hc
    simp at hc
    subst hc
    exact ⟨rfl, rfl, rfl⟩
  · rw [constructCalls_append, makeAndOptimize_constructs,
      makeAndOptimize_constructs] at hc
    simp at hc
    rcases hc with hc | hc <;> subst hc <;> exact ⟨rfl, rfl, rfl⟩

theorem genFinish_state {A : Type} (s : BotorchState) (n : Nat)
    (env : AcqfEnv A) (tr : List GenEvent) :
    (genFinish s n env tr).2.1 = s := by
  simp only [genFinish]
  split <;> rfl

theorem gen_constructs_fields {A : Type} (C : Collabs A) (s : BotorchState)
    (a : GenArgs) (mo : Option Model) (ow : Tensor)
    (oc : Option (Tensor × Tensor)) (tr0 : List GenEvent)
    (hstep : genSubsetStep C s a
      ⟨s.Xs, a.pendingObservations, a.objectiveWeights,
        a.outcomeConstraints, a.bounds, a.linearConstraints,
        a.fixedFeatures⟩
      ((a.modelGenOptions.getD emptyGenOptions).subsetModel.getD true) =
      (Except.ok (mo, ow, oc), tr0)) :
    ∀ c ∈ constructCalls (BotorchModel_gen C s a).2.2,
      c.model = mo ∧ c.objectiveWeights = ow ∧
      c.outcomeConstraints = oc := by
  intro c hc
  simp only [BotorchModel_gen] at hc
  split at hc
  · simp [constructCalls] at hc
  · rw [hstep] at hc
    rw [genFinish_trace, constructCalls_append,
      genSubsetStep_snd_no_constructs C s a _ _ _ _ hstep] at hc
    simp only [List.nil_append] at hc
    exact tryFallback_construct_fields _ c hc

/-- C9: on the flat facade, when the `subset_model` configuration key is
absent or true, `gen` applies model subsetting and passes the subsetted
model with the re-indexed objective weights and outcome constraints to
every acquisition-constructor call; with `subset_model=false` it passes
`self.model` and the caller's objective weights and outcome constraints
unchanged; in both cases only local variables are rebound — the facade
state is returned unchanged. -/
theorem claim_C9_subset_model_option {A : Type} (C : Collabs A)
    (s : BotorchState) (a : GenArgs) :
    (((a.modelGenOptions.getD emptyGenOptions).subsetModel.getD true =
        true) →
      ∀ r : SubsetModelResults,
        C.subsetModel s.model a.objectiveWeights a.outcomeConstraints =
          Except.ok r →
        ∀ c ∈ constructCalls (BotorchModel_gen C s a).2.2,
          c.model = some r.model ∧
          c.objectiveWeights = r.objectiveWeights ∧
          c.outcomeConstraints = r.outcomeConstraints) ∧
    (((a.modelGenOptions.getD emptyGenOptions).subsetModel = some false) →
      ∀ c ∈ constructCalls (BotorchModel_gen C s a).2.2,
        c.model = s.model ∧ c.objectiveWeights = a.objectiveWeights ∧
        c.outcomeConstraints = a.outcomeConstraints) ∧
    ((BotorchModel_gen C s a).2.1 = s) := by
  refine ⟨?_, ?_, ?_⟩
  · intro hsub r hr
    have hstep : genSubsetStep C s a
        ⟨s.Xs, a.pendingObservations, a.objectiveWeights,
          a.outcomeConstraints, a.bounds, a.linearConstraints,
          a.fixedFeatures⟩
        ((a.modelGenOptions.getD emptyGenOptions).subsetModel.getD
          true) =
        (Except.ok (some r.model, r.objectiveWeights,
          r.outcomeConstraints),
         [GenEvent.resolve ⟨s.Xs, a.pendingObservations,
            a.objectiveWeights, a.outcomeConstraints, a.bounds,
            a.linearConstraints, a.fixedFeatures⟩,
          GenEvent.subset (some r.model) r.objectiveWeights
            r.outcomeConstraints]) := by
      rw [hsub]
      simp [genSubsetStep, hr]
    exact gen_constructs_fields C s a _ _ _ _ hstep
  · intro hfalse
    have hstep : genSubsetStep C s a
        ⟨s.Xs, a.pendingObservations, a.objectiveWeights,
          a.outcomeConstraints, a.bounds, a.linearConstraints,
          a.fixedFeatures⟩
        ((a.modelGenOptions.getD emptyGenOptions).subsetModel.getD
          true) =
        (Except.ok (s.model, a.objectiveWeights, a.outcomeConstraints),
         [GenEvent.resolve ⟨s.Xs, a.pendingObservations,
            a.objectiveWeights, a.outcomeConstraints, a.bounds,
            a.linearConstraints, a.fixedFeatures⟩]) := by
      rw [hfalse]
      simp [genSubsetStep]
    exact gen_constructs_fields C s a _ _ _ _ hstep
  · simp only [BotorchModel_gen]
    split
    · rfl
    · split
      · rfl
      · exact genFinish_state _ _ _ _

/-- `gen` arguments that explicitly disable model subsetting. -/
def noSubsetArgs : GenArgs :=
  ⟨1, [(0, 1)], sampleObjWeights, none, none, none, none,
    some ⟨none, none, some false⟩, none, none⟩

/-- Witness for C9: with the key absent, a concrete `gen` call passes the
subsetted model to the constructor; with `subset_model=false`, it passes
the (here absent) live model and the original weights unchanged. -/
theorem claim_C9_subset_model_option_witness :
    (sampleAcqfCall.model = some sampleModel ∧
      sampleAcqfCall.objectiveWeights = sampleObjWeights ∧
      sampleAcqfCall.outcomeConstraints = none) ∧
    ((⟨none, sampleObjWeights, none, none, none, [], false⟩ :
        AcqfCall).model = initBotorchState.model ∧
      (⟨none, sampleObjWeights, none, none, none, [], false⟩ :
        AcqfCall).objectiveWeights = noSubsetArgs.objectiveWeights ∧
      (⟨none, sampleObjWeights, none, none, none, [], false⟩ :
        AcqfCall).outcomeConstraints = noSubsetArgs.outcomeConstraints) :=
  ⟨(claim_C9_subset_model_option unitAcqfCollabs initBotorchState
      (sampleGenArgs none)).1 rfl ⟨sampleModel, sampleObjWeights, none⟩
      rfl sampleAcqfCall (by decide),
   (claim_C9_subset_model_option unitAcqfCollabs initBotorchState
      noSubsetArgs).2.1 rfl
      ⟨none, sampleObjWeights, none, none, none, [], false⟩ (by decide)⟩

theorem tryFallback_ok_mem {A : Type} (env : AcqfEnv A)
    (ce : Tensor × Tensor)
    (h : (tryWithQmcFallback env).1 = Except.ok ce) :
    GenEvent.optimize (Except.ok ce) ∈ (tryWithQmcFallback env).2 := by
  simp only [tryWithQmcFallback] at h ⊢
  split at h
  · rename_i ce' t1 heq
    simp only [Except.ok.injEq] at h
    subst h
    have hm := makeAndOptimize_ok_mem env false ce' (by rw [heq])
    rw [heq] at hm
    exact hm
  · rename_i e t1 heq
    split at h
    · split at h
      · rename_i hs
        have hm := makeAndOptimize_ok_mem env true ce h
        rw [if_pos hs]
        exact List.mem_append_right _ hm
      · simp at h
    · simp at h

theorem genFinish_ok {A : Type} (s : BotorchState) (n : Nat)
    (env : AcqfEnv A) (tr : List GenEvent) (c w : Tensor)
    (meta : GenMetadata) (cm : Option CandidateMetadataList)
    (s2 : BotorchState) (t2 : List GenEvent)
    (h : genFinish s n env tr = (Except.ok (c, w, meta, cm), s2, t2)) :
    ∃ co eav : Tensor, GenEvent.optimize (Except.ok (co, eav)) ∈ t2 ∧
      c = co.detach.cpu ∧ w = torchOnes n ∧
      meta = [(expectedAcqfValKey, eav.tolist)] ∧ cm = none := by
  simp only [genFinish] at h
  split at h
  · simp at h
  · rename_i ce t heq
    simp only [Prod.mk.injEq, Except.ok.injEq] at h
    obtain ⟨⟨hc, hw, hm, hcm⟩, _hs, ht⟩ := h
    refine ⟨ce.1, ce.2, ?_, hc.symm, hw.symm, hm.symm, hcm.symm⟩
    have hmem := tryFallback_ok_mem env ce (by rw [heq])
    rw [heq] at hmem
    rw [← ht]
    exact List.mem_append_right _ hmem

/-- C3: every successful `gen(n=k, ...)` call, on the flat and on the
modular facade, returns the optimizer's candidates detached and moved to
host (CPU) memory, a weight tensor equal to a vector of `k` ones, a
metadata dictionary carrying the expected acquisition value as a numeric
entry, and `None` candidate metadata. -/
theorem claim_C3_gen_result_shape (A : Type) :
    (∀ (C : Collabs A) (s : BotorchState) (a : GenArgs) (c w : Tensor)
        (meta : GenMetadata) (cm : Option CandidateMetadataList)
        (s2 : BotorchState) (tr : List GenEvent),
      BotorchModel_gen C s a = (Except.ok (c, w, meta, cm), s2, tr) →
      ∃ co eav : Tensor, GenEvent.optimize (Except.ok (co, eav)) ∈ tr ∧
        c = co.detach.cpu ∧ c.device = Device.cpu ∧
        c.requiresGrad = false ∧ w = torchOnes a.n ∧
        meta = [(expectedAcqfValKey, eav.tolist)] ∧ cm = none) ∧
    (∀ (MC : ModularCollabs) (ms : ModularState) (a : GenArgs)
        (c w : Tensor) (meta : GenMetadata)
        (cm : Option CandidateMetadataList) (ms2 : ModularState)
        (opts : List (Except PyError (Tensor × Tensor))),
      ModularBoTorch_gen MC ms a = (Except.ok (c, w, meta, cm), ms2, opts) →
      ∃ co eav : Tensor, opts = [Except.ok (co, eav)] ∧
        c = co.detach.cpu ∧ c.device = Device.cpu ∧
        c.requiresGrad = false ∧ w = torchOnes a.n ∧
        meta = [(expectedAcqfValKey, eav.tolist)] ∧ cm = none) := by
  constructor
  · intro C s a c w meta cm s2 tr h
    simp only [BotorchModel_gen] at h
    split at h
    · simp at h
    · split at h
      · simp at h
      · obtain ⟨co, eav, hmem, hc, hw, hm, hcm⟩ :=
          genFinish_ok _ _ _ _ _ _ _ _ _ _
            (by rw [h] :
              genFinish s a.n _ _ = (Except.ok (c, w, meta, cm), s2, tr))
        refine ⟨co, eav, ?_, hc, ?_, ?_, hw, hm, hcm⟩
        · exact hmem
        · rw [hc]
          rfl
        · rw [hc]
          rfl
  · intro MC ms a c w meta cm ms2 opts h
    simp only [ModularBoTorch_gen] at h
    split at h
    · simp at h
    · rename_i sg heq
      split at h
      · simp at h
      · rename_i ce heq2
        simp only [Prod.mk.injEq, Except.ok.injEq] at h
        obtain ⟨⟨hc, hw, hm, hcm⟩, _hs, ht⟩ := h
        refine ⟨ce.1, ce.2, ?_, hc.symm, ?_, ?_, hw.symm, hm.symm,
          hcm.symm⟩
        · rw [← ht]
        · rw [← hc]
          rfl
        · rw [← hc]
          rfl

/-- Witness for C3: a concrete successful flat `gen` call returns the
optimizer's candidates detached on the host, unit weights, the expected
acquisition value in the metadata, and no candidate metadata. -/
theorem claim_C3_gen_result_shape_witness :
    ∃ co eav : Tensor,
      GenEvent.optimize (Except.ok (co, eav)) ∈ sampleGenTrace ∧
      sampleCandidates.detach.cpu = co.detach.cpu ∧
      (sampleCandidates.detach.cpu).device = Device.cpu ∧
      (sampleCandidates.detach.cpu).requiresGrad = false ∧
      torchOnes 1 = torchOnes (sampleGenArgs none).n ∧
      [(expectedAcqfValKey, sampleEav.tolist)] =
        [(expectedAcqfValKey, eav.tolist)] ∧
      (none : Option CandidateMetadataList) = none :=
  (claim_C3_gen_result_shape Unit).1 unitAcqfCollabs initBotorchState
    (sampleGenArgs none) (sampleCandidates.detach.cpu) (torchOnes 1)
    [(expectedAcqfValKey, sampleEav.tolist)] none initBotorchState
    sampleGenTrace (by decide)
